import Mathlib

/-!
A shallow embedding of the poll state reconstruction and aggregation engine of
the nio-poll-bot repository (files `nio_poll_bot/storage.py` and
`nio_poll_bot/callbacks.py`), together with theorems settling the claims about
it.  The relational store (three tables: polls, answers, responses) is embedded
as lists of rows in insertion order; Python code that can raise an uncaught
exception is embedded with `Option` (or an explicit `raised` flag), where
`none` / `raised = true` models the exception.
-/

namespace NioPollBot

set_option autoImplicit false

/-- A row of the `polls` table (`storage.py`, migration v1): columns
`room_id, event_id, topic, kind, reply_event_id` with primary key
`(room_id, event_id)`; `reply_event_id` is nullable. -/
structure PollRow where
  room_id : String
  event_id : String
  topic : String
  kind : String
  reply_event_id : Option String
deriving DecidableEq, Repr

/-- A row of the `answers` table: columns
`answer, answer_hash, room_id, reference_id` with primary key
`(room_id, reference_id, answer_hash)`. -/
structure AnswerRow where
  answer : String
  answer_hash : String
  room_id : String
  reference_id : String
deriving DecidableEq, Repr

/-- A row of the `responses` table: columns
`response, user, room_id, reference_id` with primary key
`(room_id, reference_id, user)`. -/
structure ResponseRow where
  response : String
  user : String
  room_id : String
  reference_id : String
deriving DecidableEq, Repr

/-- The relational store of `storage.py`: the three tables, each kept as the
list of its rows in insertion order (sqlite returns rows of these rowid
tables in insertion order, which the renderer's dict building relies on). -/
structure Storage where
  polls : List PollRow
  answers : List AnswerRow
  responses : List ResponseRow
deriving DecidableEq, Repr

/-- `Storage.create_poll` (storage.py lines 171-186): an unconditional INSERT
into `polls`; a duplicate primary key `(room_id, event_id)` makes the INSERT
raise, modelled by `none`. -/
def create_poll (s : Storage) (room_id event_id topic kind : String) :
    Option Storage :=
  if ∃ p ∈ s.polls, p.room_id = room_id ∧ p.event_id = event_id then none
  else some { s with polls := s.polls ++ [⟨room_id, event_id, topic, kind, none⟩] }

/-- `Storage.get_poll` (storage.py lines 188-199): `SELECT * FROM polls WHERE
room_id = ? AND event_id = ?` followed by `fetchone()`. -/
def get_poll (s : Storage) (room_id event_id : String) : Option PollRow :=
  s.polls.find? (fun p => p.room_id == room_id && p.event_id == event_id)

/-- `Storage.get_reply_event` (storage.py lines 239-250): the same SELECT and
`fetchone()` as `get_poll` (the source duplicates the query). -/
def get_reply_event (s : Storage) (room_id event_id : String) : Option PollRow :=
  s.polls.find? (fun p => p.room_id == room_id && p.event_id == event_id)

/-- `Storage.delete_poll` (storage.py lines 203-225): three DELETE statements
removing the poll row and every answers/responses row whose
`(room_id, reference_id)` matches the poll's key. -/
def delete_poll (s : Storage) (room_id event_id : String) : Storage :=
  { polls := s.polls.filter (fun p => !(p.room_id == room_id && p.event_id == event_id)),
    answers := s.answers.filter (fun a => !(a.room_id == room_id && a.reference_id == event_id)),
    responses := s.responses.filter (fun r => !(r.room_id == room_id && r.reference_id == event_id)) }

/-- `Storage.update_reply_event_id_in_poll` (storage.py lines 227-237):
`UPDATE polls SET reply_event_id = ? WHERE room_id = ? AND event_id = ?`. -/
def update_reply_event_id_in_poll (s : Storage) (room_id event_id reply_event_id : String) :
    Storage :=
  { s with polls := s.polls.map (fun p =>
      if p.room_id == room_id && p.event_id == event_id then
        { p with reply_event_id := some reply_event_id } else p) }

/-- `Storage.add_answer` (storage.py lines 252-267): an unconditional INSERT
into `answers`; a duplicate primary key raises, modelled by `none`. -/
def add_answer (s : Storage) (answer answer_hash room_id reference_id : String) :
    Option Storage :=
  if ∃ a ∈ s.answers, a.room_id = room_id ∧ a.reference_id = reference_id ∧
      a.answer_hash = answer_hash then none
  else some { s with answers := s.answers ++ [⟨answer, answer_hash, room_id, reference_id⟩] }

/-- `Storage.get_answers` (storage.py lines 269-280): `SELECT * FROM answers
WHERE room_id = ? AND reference_id = ?` with `fetchall()`. -/
def get_answers (s : Storage) (room_id reference_id : String) : List AnswerRow :=
  s.answers.filter (fun a => a.room_id == room_id && a.reference_id == reference_id)

/-- `Storage.get_responses` (storage.py lines 282-293): `SELECT * FROM
responses WHERE room_id = ? AND reference_id = ?` with `fetchall()`. -/
def get_responses (s : Storage) (room_id reference_id : String) : List ResponseRow :=
  s.responses.filter (fun r => r.room_id == room_id && r.reference_id == reference_id)

/-- The conflict target of `create_or_update_response`:
`ON CONFLICT (user, room_id, reference_id)`. -/
abbrev respMatch (user room_id reference_id : String) (r : ResponseRow) : Prop :=
  r.user = user ∧ r.room_id = room_id ∧ r.reference_id = reference_id

/-- `Storage.create_or_update_response` (storage.py lines 295-311):
`INSERT INTO responses ... ON CONFLICT (user, room_id, reference_id) DO UPDATE
SET response = ?` — if a row with the key exists its `response` column is
overwritten in place, otherwise a fresh row is appended. -/
def create_or_update_response (s : Storage) (response user room_id reference_id : String) :
    Storage :=
  if ∃ r ∈ s.responses, respMatch user room_id reference_id r then
    { s with responses := s.responses.map (fun r =>
        if respMatch user room_id reference_id r then { r with response := response } else r) }
  else
    { s with responses := s.responses ++ [⟨response, user, room_id, reference_id⟩] }

/-- Number of responses rows of `s` matching the key
`(room_id, reference_id, user)`. -/
def respCount (s : Storage) (user room_id reference_id : String) : Nat :=
  s.responses.countP (fun r => decide (respMatch user room_id reference_id r))

/-- `make_pill` (chat_functions.py): the formatted user mention, with the
display name defaulting to the user id. -/
def make_pill (user_id : String) : String :=
  "<a href=\"https://matrix.to/#/" ++ user_id ++ "\">" ++ user_id ++ "</a>"

/-- Insertion into a Python dict built by a comprehension: a duplicate key
overwrites the value but keeps the key's original position, a fresh key is
appended. -/
def dictInsert {α : Type} (d : List (String × α)) (k : String) (v : α) :
    List (String × α) :=
  if ∃ q ∈ d, q.1 = k then d.map (fun q => if q.1 = k then (q.1, v) else q)
  else d ++ [(k, v)]

/-- The Python dict comprehension `{f(x) : g(x) for x in l}` as an ordered
association list. -/
def dictOfPairs {α : Type} (l : List (String × α)) : List (String × α) :=
  l.foldl (fun d p => dictInsert d p.1 p.2) []

/-- Python `d[k]` on an ordered association list whose keys are unique:
the first entry with the key, if any. -/
def dlookup {α : Type} (d : List (String × α)) (k : String) : Option α :=
  (d.find? (fun q => q.1 == k)).map (fun q => q.2)

/-- One step of the voters loop of `_get_formatted_open_poll_results`
(callbacks.py line 76-77): `voters[response_hash].append(user)`; a
`response_hash` that is not a key of `voters` raises `KeyError`, modelled by
`none`. -/
def addVoter (voters : List (String × List String)) (h u : String) :
    Option (List (String × List String)) :=
  if ∃ q ∈ voters, q.1 = h then
    some (voters.map (fun q => if q.1 = h then (q.1, q.2 ++ [u]) else q))
  else none

/-- The `answer_table` dict of `_get_formatted_open_poll_results`
(callbacks.py line 70): `{answer[1]: answer[0] for answer in answers}`. -/
def answer_table (s : Storage) (room_id reference_id : String) : List (String × String) :=
  dictOfPairs ((get_answers s room_id reference_id).map (fun a => (a.answer_hash, a.answer)))

/-- The `user_responses` dict of both renderers (callbacks.py lines 55 and
71): `{response[1]: response[0] for response in responses}`. -/
def user_responses (s : Storage) (room_id reference_id : String) : List (String × String) :=
  dictOfPairs ((get_responses s room_id reference_id).map (fun r => (r.user, r.response)))

/-- The initial `voters` dict of `_get_formatted_open_poll_results`
(callbacks.py line 73): `{answer[1]: [] for answer in answers}`. -/
def voters_init (s : Storage) (room_id reference_id : String) : List (String × List String) :=
  dictOfPairs ((get_answers s room_id reference_id).map
    (fun a => (a.answer_hash, ([] : List String))))

/-- The voters loop of `_get_formatted_open_poll_results` (callbacks.py lines
76-77): fold `addVoter` over the `user_responses` items, propagating a
raised `KeyError` as `none`. -/
def votersFold (l : List (String × String)) (d : List (String × List String)) :
    Option (List (String × List String)) :=
  l.foldl (fun acc p => acc.bind (fun v => addVoter v p.2 p.1)) (some d)

/-- The tally body of `_get_formatted_open_poll_results` (callbacks.py lines
66-82): append each voter to their answer's bucket (`none` on an unknown
hash), then emit the buckets in reverse insertion order of `answer_table`. -/
def openPollData (s : Storage) (room_id reference_id : String) : Option String :=
  (votersFold (user_responses s room_id reference_id)
      (voters_init s room_id reference_id)).bind
    (fun voters =>
      (answer_table s room_id reference_id).reverse.foldlM (fun data p =>
        (dlookup voters p.1).map (fun vs =>
          data ++ p.2 ++ ":\n" ++ String.join (vs.map (fun u => make_pill u ++ "\n")) ++ "\n"))
        "")

/-- `_get_formatted_open_poll_results` (callbacks.py lines 65-87), the
disclosed-mode renderer: `none` models a raised exception (missing poll row,
or a `KeyError` from the voters loop). -/
def get_formatted_open_poll_results (s : Storage) (room_id reference_id : String)
    (is_final : Bool) : Option String :=
  match get_poll s room_id reference_id, openPollData s room_id reference_id with
  | some poll, some data =>
      some ((if is_final then "Final poll results for `" else "Poll results for `")
        ++ poll.topic ++ "`:\n\n" ++ data)
  | _, _ => none

/-- The tally body of `_get_formatted_closed_poll_results` (callbacks.py lines
55-59): every distinct voter's pill once, in first-vote order, followed by a
blank line. -/
def closedPollData (s : Storage) (room_id reference_id : String) : String :=
  String.join ((user_responses s room_id reference_id).map
    (fun p => make_pill p.1 ++ "\n")) ++ "\n"

/-- `_get_formatted_closed_poll_results` (callbacks.py lines 51-63), the
undisclosed-mode renderer: `none` models the exception raised when the poll
row is missing. -/
def get_formatted_closed_poll_results (s : Storage) (room_id reference_id : String)
    (is_final : Bool) : Option String :=
  match get_poll s room_id reference_id with
  | some poll =>
      some ((if is_final then "Final voters for poll `" else "Voters for poll `")
        ++ poll.topic ++ "`:\n\n" ++ closedPollData s room_id reference_id)
  | none => none

/-- `Callbacks.get_formatted_poll_results` (callbacks.py lines 45-49): the
renderer dispatch on the poll's kind string. -/
def get_formatted_poll_results (s : Storage) (room_id reference_id : String)
    (is_final : Bool) (kind : String) : Option String :=
  if kind = "org.matrix.msc3381.poll.disclosed" then
    get_formatted_open_poll_results s room_id reference_id is_final
  else
    get_formatted_closed_poll_results s room_id reference_id is_final

/-- One entry of the `answers` list of a poll-start event's content:
`id` models `answer.get("id", "")` and `text` models
`answer.get("org.matrix.msc1767.text", "")` (callbacks.py lines 229-231). -/
structure AnswerEntry where
  id : String
  text : String
deriving DecidableEq, Repr

/-- An inbound event as observed by the `unknown` callback and by
`event_related_to_poll`.  Fields model the exact dictionary extractions of
callbacks.py, with their `.get` defaults baked in:
`is_unknown_event` is whether the nio-parsed Python object has class
`UnknownEvent`; `has_content` models `event.source.get("content", {}) != {}`;
`start_content_present` models that the start payload under the legacy key (or
the alternate iOS wrapping) is non-empty; `topic` and `kind` model the
question text and kind with `""` defaults; `answers` models the start
payload's answers list; `response_answers` models
`content.get("org.matrix.msc3381.poll.response", {}).get("answers", [])`;
`reference_id` models `content.get("m.relates_to", {}).get("event_id", "")`
and `sender` models `event.source.get("sender", "")`. -/
structure PollEvent where
  is_unknown_event : Bool
  etype : String
  room_id : String
  event_id : String
  sender : String
  has_content : Bool
  start_content_present : Bool
  topic : String
  kind : String
  answers : List AnswerEntry
  response_answers : List String
  reference_id : String
deriving DecidableEq, Repr

/-- An outbound network call made by the handler:
`send` is `send_text_to_room` without an edit target (a new tally message,
returning the id recorded as `reply_event_id`), `edit` is `send_text_to_room`
with `edit_event_id=` the given (possibly null) value. -/
inductive Effect where
  | send (room_id : String) (message : String)
  | edit (room_id : String) (edit_event_id : Option String) (message : String)
deriving DecidableEq, Repr

/-- The outcome of one `unknown` callback invocation: the store after the
call, the outbound calls made, and whether an uncaught exception was raised
(in which case `store` is the state at the moment of the raise). -/
structure HRes where
  store : Storage
  effects : List Effect
  raised : Bool
deriving DecidableEq, Repr

/-- The answers loop of the poll-start branch (callbacks.py lines 229-238):
entries with an empty id or empty text are skipped with a log line; a
duplicate `add_answer` INSERT raises, aborting the loop with the partial
store (`true` in the second component). -/
def add_answers_loop (s : Storage) (room_id reference_id : String) :
    List AnswerEntry → Storage × Bool
  | [] => (s, false)
  | a :: rest =>
    if a.id = "" then add_answers_loop s room_id reference_id rest
    else if a.text = "" then add_answers_loop s room_id reference_id rest
    else match add_answer s a.text a.id room_id reference_id with
      | none => (s, true)
      | some s1 => add_answers_loop s1 room_id reference_id rest

/-- The poll-start branch of `unknown` (callbacks.py lines 204-249): validate
content, topic and kind (silent drops), INSERT the poll (raises on a
duplicate key), insert the answers, render the initial tally, send it as a
new message (`send_event_id` is the event id the client returns for that
send), then record it as the poll's `reply_event_id`. -/
def handle_poll_start (room : String) (s : Storage) (ev : PollEvent)
    (send_event_id : String) : HRes :=
  if ev.has_content = false then ⟨s, [], false⟩
  else if ev.start_content_present = false then ⟨s, [], false⟩
  else if ev.topic = "" then ⟨s, [], false⟩
  else if ev.kind = "" then ⟨s, [], false⟩
  else match create_poll s ev.room_id ev.event_id ev.topic ev.kind with
    | none => ⟨s, [], true⟩
    | some s1 =>
      match add_answers_loop s1 ev.room_id ev.event_id ev.answers with
      | (s2, true) => ⟨s2, [], true⟩
      | (s2, false) =>
        match get_formatted_poll_results s2 ev.room_id ev.event_id false ev.kind with
        | none => ⟨s2, [], true⟩
        | some msg =>
          ⟨update_reply_event_id_in_poll s2 ev.room_id ev.event_id send_event_id,
           [Effect.send room msg], false⟩

/-- The poll-response branch of `unknown` (callbacks.py lines 250-270): take
the first element of the declared answers list (an empty list raises
IndexError), silently drop an empty back-reference id, look the poll row up
(`if reply_event:` — any existing row, whatever its `reply_event_id`), upsert
the response, re-render and edit the tally message in place. -/
def handle_poll_response (room : String) (s : Storage) (ev : PollEvent) : HRes :=
  match ev.response_answers.head? with
  | none => ⟨s, [], true⟩
  | some response =>
    if ev.reference_id = "" then ⟨s, [], false⟩
    else match get_reply_event s ev.room_id ev.reference_id with
      | none => ⟨s, [], false⟩
      | some reply_event =>
        let s1 := create_or_update_response s response ev.sender ev.room_id ev.reference_id
        match get_formatted_poll_results s1 ev.room_id ev.reference_id false reply_event.kind with
        | none => ⟨s1, [], true⟩
        | some msg => ⟨s1, [Effect.edit room reply_event.reply_event_id msg], false⟩

/-- The poll-end branch of `unknown` (callbacks.py lines 272-288): look the
poll row up by the back-reference id (silent drop when absent), render the
final tally, edit the tally message one last time, then delete the poll with
its answers and responses. -/
def handle_poll_end (room : String) (s : Storage) (ev : PollEvent) : HRes :=
  match get_reply_event s ev.room_id ev.reference_id with
  | none => ⟨s, [], false⟩
  | some reply_event =>
    match get_formatted_poll_results s ev.room_id ev.reference_id true reply_event.kind with
    | none => ⟨s, [], true⟩
    | some msg =>
      ⟨delete_poll s ev.room_id ev.reference_id,
       [Effect.edit room reply_event.reply_event_id msg], false⟩

/-- `Callbacks.unknown` (callbacks.py lines 187-295): the staleness filter
(`is_old` abstracts the wall-clock age comparison `> 300` seconds), then
dispatch on the event's type string over the legacy and stabilized poll type
namespaces; any other type is only logged.  `room` is `room.room_id` of the
`MatrixRoom` argument (used for the outbound calls), while store operations
use `event.room_id`. -/
def unknown (room : String) (s : Storage) (ev : PollEvent)
    (filter_old_messages ignore_old is_old : Bool) (send_event_id : String) : HRes :=
  if (!filter_old_messages && ignore_old && is_old) = true then ⟨s, [], false⟩
  else if ev.etype = "org.matrix.msc3381.poll.start" ∨ ev.etype = "m.poll.start" then
    handle_poll_start room s ev send_event_id
  else if ev.etype = "org.matrix.msc3381.poll.response" ∨ ev.etype = "m.poll.response" then
    handle_poll_response room s ev
  else if ev.etype = "org.matrix.msc3381.poll.end" ∨ ev.etype = "m.poll.end" then
    handle_poll_end room s ev
  else ⟨s, [], false⟩

/-- `Callbacks.event_related_to_poll` (callbacks.py lines 297-309): a
non-`UnknownEvent` never matches; a poll-start matches by its own event id, a
poll-response or poll-end by its back-reference id; any other type string
never matches. -/
def event_related_to_poll (ev : PollEvent) (event_id : String) : Bool :=
  if ev.is_unknown_event = false then false
  else if ev.etype = "org.matrix.msc3381.poll.start" ∨ ev.etype = "m.poll.start" then
    ev.event_id == event_id
  else if ev.etype = "org.matrix.msc3381.poll.response" ∨
      ev.etype = "org.matrix.msc3381.poll.end" ∨
      ev.etype = "m.poll.response" ∨ ev.etype = "m.poll.end" then
    ev.reference_id == event_id
  else false

/-! ### Concrete fixtures used by counterexamples and witnesses -/

/-- A disclosed poll holding one answer and a persisted response whose
`answer_hash` (`"zz"`) matches no persisted answer. -/
def c1_store : Storage :=
  ⟨[⟨"r", "e", "Lunch?", "org.matrix.msc3381.poll.disclosed", some "re"⟩],
   [⟨"Pizza", "a1", "r", "e"⟩],
   [⟨"zz", "@bob:x", "r", "e"⟩]⟩

/-- A poll-response event whose declared answers list is empty and whose
back-reference id is empty. -/
def c2_bad_ev : PollEvent :=
  ⟨true, "org.matrix.msc3381.poll.response", "r", "e0", "@bob:x", true, true,
   "", "", [], [], ""⟩

/-- An undisclosed poll known to the store. -/
def c2_store : Storage := ⟨[⟨"r", "e", "T", "k", some "re"⟩], [], []⟩

/-- A poll-response event for `c2_store`'s poll choosing answer `"a1"`. -/
def c2_ev : PollEvent :=
  ⟨true, "org.matrix.msc3381.poll.response", "r", "e0", "@bob:x", true, true,
   "", "", [], ["a1"], "e"⟩

/-- An undisclosed poll that exists in the store with `reply_event_id`
still unset. -/
def c3_store : Storage := ⟨[⟨"r", "e", "T", "k", none⟩], [], []⟩

/-- A poll-response event referencing `c3_store`'s poll. -/
def c3_ev : PollEvent :=
  ⟨true, "org.matrix.msc3381.poll.response", "r", "e0", "@bob:x", true, true,
   "", "", [], ["a1"], "e"⟩

/-- A disclosed poll holding a response with an unknown answer hash, so that
rendering its final tally raises. -/
def c5_store : Storage :=
  ⟨[⟨"r", "e", "T", "org.matrix.msc3381.poll.disclosed", some "re"⟩],
   [⟨"Pizza", "a1", "r", "e"⟩],
   [⟨"zz", "@bob:x", "r", "e"⟩]⟩

/-- A poll-end event referencing `c5_store`'s poll. -/
def c5_ev : PollEvent :=
  ⟨true, "org.matrix.msc3381.poll.end", "r", "e9", "@a:x", true, true,
   "", "", [], [], "e"⟩

/-- An undisclosed poll with one answer and one well-formed response. -/
def c5w_store : Storage :=
  ⟨[⟨"r", "e", "T", "k", some "re"⟩],
   [⟨"Pizza", "a1", "r", "e"⟩],
   [⟨"a1", "@bob:x", "r", "e"⟩]⟩

/-- A stabilized-type poll-end event referencing `c5w_store`'s poll. -/
def c5w_ev : PollEvent :=
  ⟨true, "m.poll.end", "r", "e9", "@a:x", true, true, "", "", [], [], "e"⟩

/-- The spec scenario poll: disclosed, topic `Lunch?`, answers Pizza/`a1`
then Salad/`a2`, no responses. -/
def c7_store : Storage :=
  ⟨[⟨"r", "e", "Lunch?", "org.matrix.msc3381.poll.disclosed", none⟩],
   [⟨"Pizza", "a1", "r", "e"⟩, ⟨"Salad", "a2", "r", "e"⟩],
   []⟩

/-- A store already containing the poll `("r", "e")`. -/
def c9_store : Storage := ⟨[⟨"r", "e", "T", "k", none⟩], [], []⟩

/-- A valid poll-start event for the already-present poll of `c9_store`. -/
def c9_ev : PollEvent :=
  ⟨true, "org.matrix.msc3381.poll.start", "r", "e", "@a:x", true, true,
   "T2", "k2", [], [], ""⟩

/-- A poll-start typed event whose own event id is the target. -/
def c6_ev : PollEvent :=
  ⟨true, "org.matrix.msc3381.poll.start", "r", "e", "@a:x", true, true,
   "T", "k", [], [], ""⟩

/-! ### List helpers -/

/-- Mapping a function that agrees with another on every member. -/
lemma map_congr_mem {α β : Type} {l : List α} {f g : α → β}
    (h : ∀ a ∈ l, f a = g a) : l.map f = l.map g := by
  induction l with
  | nil => rfl
  | cons a t ih =>
    simp only [List.map_cons, h a (List.mem_cons_self a t)]
    rw [ih (fun x hx => h x (List.mem_cons_of_mem a hx))]

/-- `find?` over the residue of filtering the predicate away. -/
lemma find?_filter_not {α : Type} (l : List α) (p : α → Bool) :
    (l.filter (fun a => !(p a))).find? p = none := by
  induction l with
  | nil => rfl
  | cons a t ih =>
    by_cases h : p a = true
    · simp only [List.filter_cons, h, Bool.not_true, Bool.false_eq_true, if_false]
      exact ih
    · have h' : p a = false := by revert h; cases p a <;> simp
      simp only [List.filter_cons, h', Bool.not_false, if_true, List.find?_cons, h']
      exact ih

/-- `filter` over the residue of filtering the predicate away. -/
lemma filter_filter_not {α : Type} (l : List α) (p : α → Bool) :
    (l.filter (fun a => !(p a))).filter p = [] := by
  induction l with
  | nil => rfl
  | cons a t ih =>
    by_cases h : p a = true
    · simp only [List.filter_cons, h, Bool.not_true, Bool.false_eq_true, if_false]
      exact ih
    · have h' : p a = false := by revert h; cases p a <;> simp
      simp only [List.filter_cons, h', Bool.not_false, if_true, h', Bool.false_eq_true, if_false]
      exact ih

/-! ### Effect of `delete_poll` on the lookups -/

/-- After `delete_poll`, the poll row is gone. -/
lemma get_reply_event_delete (s : Storage) (room_id event_id : String) :
    get_reply_event (delete_poll s room_id event_id) room_id event_id = none := by
  unfold get_reply_event delete_poll
  exact find?_filter_not _ _

/-- After `delete_poll`, `get_poll` finds nothing. -/
lemma get_poll_delete (s : Storage) (room_id event_id : String) :
    get_poll (delete_poll s room_id event_id) room_id event_id = none := by
  unfold get_poll delete_poll
  exact find?_filter_not _ _

/-- After `delete_poll`, the poll has no answers rows left. -/
lemma get_answers_delete (s : Storage) (room_id event_id : String) :
    get_answers (delete_poll s room_id event_id) room_id event_id = [] := by
  unfold get_answers delete_poll
  exact filter_filter_not _ _

/-- After `delete_poll`, the poll has no responses rows left. -/
lemma get_responses_delete (s : Storage) (room_id event_id : String) :
    get_responses (delete_poll s room_id event_id) room_id event_id = [] := by
  unfold get_responses delete_poll
  exact filter_filter_not _ _

/-! ### Algebra of the response upsert -/

/-- The responses-table content of the upsert, as a pure list operation. -/
def upsertList (l : List ResponseRow) (response user room_id reference_id : String) :
    List ResponseRow :=
  if ∃ r ∈ l, respMatch user room_id reference_id r then
    l.map (fun r =>
      if respMatch user room_id reference_id r then { r with response := response } else r)
  else l ++ [⟨response, user, room_id, reference_id⟩]

/-- `create_or_update_response` only rewrites the responses table. -/
lemma create_or_update_response_eq (s : Storage) (v user room_id reference_id : String) :
    create_or_update_response s v user room_id reference_id =
      { s with responses := upsertList s.responses v user room_id reference_id } := by
  unfold create_or_update_response upsertList
  by_cases h : ∃ r ∈ s.responses, respMatch user room_id reference_id r
  · rw [if_pos h, if_pos h]
  · rw [if_neg h, if_neg h]

/-- A second upsert for the same key overwrites the first. -/
lemma upsertList_absorb (l : List ResponseRow) (v1 v2 user room_id reference_id : String) :
    upsertList (upsertList l v1 user room_id reference_id) v2 user room_id reference_id =
      upsertList l v2 user room_id reference_id := by
  unfold upsertList
  by_cases h : ∃ r ∈ l, respMatch user room_id reference_id r
  · rw [if_pos h]
    have h2 : ∃ r ∈ l.map (fun r =>
        if respMatch user room_id reference_id r then { r with response := v1 } else r),
        respMatch user room_id reference_id r := by
      obtain ⟨r, hr, hm⟩ := h
      refine ⟨_, List.mem_map_of_mem _ hr, ?_⟩
      rw [if_pos hm]
      exact hm
    rw [if_pos h2, if_pos h, List.map_map]
    apply map_congr_mem
    intro r _
    by_cases hm : respMatch user room_id reference_id r
    · have hm2 : respMatch user room_id reference_id { r with response := v1 } := hm
      simp only [Function.comp_apply, if_pos hm, if_pos hm2]
    · simp only [Function.comp_apply, if_neg hm]
  · rw [if_neg h]
    have h2 : ∃ r ∈ l ++ [(⟨v1, user, room_id, reference_id⟩ : ResponseRow)],
        respMatch user room_id reference_id r :=
      ⟨⟨v1, user, room_id, reference_id⟩, by simp, rfl, rfl, rfl⟩
    rw [if_pos h2, if_neg h, List.map_append]
    congr 1
    · conv_rhs => rw [← List.map_id l]
      apply map_congr_mem
      intro r hr
      have hm : ¬ respMatch user room_id reference_id r := fun hm => h ⟨r, hr, hm⟩
      simp only [if_neg hm, id]
    · simp only [List.map_cons, List.map_nil]
      rw [if_pos ⟨rfl, rfl, rfl⟩]

/-- `create_or_update_response` absorption: only the last write survives. -/
lemma upsert_absorb (s : Storage) (v1 v2 user room_id reference_id : String) :
    create_or_update_response (create_or_update_response s v1 user room_id reference_id)
        v2 user room_id reference_id =
      create_or_update_response s v2 user room_id reference_id := by
  rw [create_or_update_response_eq, create_or_update_response_eq,
    create_or_update_response_eq, upsertList_absorb]

/-- A chain of upserts for one key collapses to the upsert of its last value. -/
lemma upsert_foldl (user room_id reference_id : String) (vs : List String) (vlast : String)
    (hlast : vs.getLast? = some vlast) (s : Storage) :
    vs.foldl (fun st v => create_or_update_response st v user room_id reference_id) s =
      create_or_update_response s vlast user room_id reference_id := by
  induction vs generalizing s with
  | nil => simp at hlast
  | cons v t ih =>
    cases t with
    | nil =>
      simp only [List.getLast?_singleton, Option.some.injEq] at hlast
      subst hlast
      rfl
    | cons w u =>
      have hlast' : (w :: u).getLast? = some vlast := by
        rwa [List.getLast?_cons_cons] at hlast
      calc (v :: w :: u).foldl
            (fun st v => create_or_update_response st v user room_id reference_id) s
          = (w :: u).foldl (fun st v => create_or_update_response st v user room_id reference_id)
              (create_or_update_response s v user room_id reference_id) := rfl
        _ = create_or_update_response
              (create_or_update_response s v user room_id reference_id)
              vlast user room_id reference_id := ih hlast' _
        _ = create_or_update_response s vlast user room_id reference_id :=
              upsert_absorb _ _ _ _ _ _

/-- The row count for a key after an upsert is exactly one, provided the
primary-key invariant (at most one row per key) held before. -/
lemma countP_upsertList (l : List ResponseRow) (v user room_id reference_id : String)
    (h : l.countP (fun r => decide (respMatch user room_id reference_id r)) ≤ 1) :
    (upsertList l v user room_id reference_id).countP
      (fun r => decide (respMatch user room_id reference_id r)) = 1 := by
  unfold upsertList
  by_cases hex : ∃ r ∈ l, respMatch user room_id reference_id r
  · rw [if_pos hex, List.countP_map]
    have hcomp : ((fun r => decide (respMatch user room_id reference_id r)) ∘
        (fun r => if respMatch user room_id reference_id r then { r with response := v }
          else r)) = (fun r => decide (respMatch user room_id reference_id r)) := by
      funext r
      by_cases hm : respMatch user room_id reference_id r
      · have hm2 : respMatch user room_id reference_id { r with response := v } := hm
        simp only [Function.comp_apply, if_pos hm, decide_eq_true hm, decide_eq_true hm2]
      · simp only [Function.comp_apply, if_neg hm]
    rw [hcomp]
    obtain ⟨r, hr, hm⟩ := hex
    have hpos : 0 < l.countP (fun r => decide (respMatch user room_id reference_id r)) :=
      List.countP_pos_iff.mpr ⟨r, hr, decide_eq_true hm⟩
    omega
  · rw [if_neg hex, List.countP_append]
    have h0 : l.countP (fun r => decide (respMatch user room_id reference_id r)) = 0 :=
      List.countP_eq_zero.mpr (fun r hr hm => hex ⟨r, hr, of_decide_eq_true hm⟩)
    rw [h0]
    simp [respMatch]

/-- `respCount` after an upsert, at the `Storage` level. -/
lemma respCount_upsert (s : Storage) (v user room_id reference_id : String)
    (h : respCount s user room_id reference_id ≤ 1) :
    respCount (create_or_update_response s v user room_id reference_id)
      user room_id reference_id = 1 := by
  rw [respCount, create_or_update_response_eq]
  exact countP_upsertList _ _ _ _ _ h

/-! ### Keys of the dict model -/

/-- Keys after a dict insertion. -/
lemma dictInsert_keys {α : Type} (d : List (String × α)) (k : String) (v : α) (k' : String) :
    (∃ q ∈ dictInsert d k v, q.1 = k') ↔ (∃ q ∈ d, q.1 = k') ∨ k = k' := by
  unfold dictInsert
  have hfst : ∀ q : String × α, ((if q.1 = k then (q.1, v) else q).1) = q.1 := by
    intro q; split <;> rfl
  by_cases h : ∃ q ∈ d, q.1 = k
  · rw [if_pos h]
    constructor
    · rintro ⟨q, hq, hk⟩
      obtain ⟨q0, hq0, rfl⟩ := List.mem_map.mp hq
      exact Or.inl ⟨q0, hq0, by rwa [hfst q0] at hk⟩
    · rintro (⟨q, hq, hk⟩ | rfl)
      · exact ⟨_, List.mem_map_of_mem _ hq, by rw [hfst q]; exact hk⟩
      · obtain ⟨q, hq, hk⟩ := h
        exact ⟨_, List.mem_map_of_mem _ hq, by rw [hfst q]; exact hk⟩
  · rw [if_neg h]
    constructor
    · rintro ⟨q, hq, hk⟩
      rcases List.mem_append.mp hq with h1 | h1
      · exact Or.inl ⟨q, h1, hk⟩
      · simp only [List.mem_singleton] at h1
        subst h1
        exact Or.inr hk
    · rintro (⟨q, hq, hk⟩ | rfl)
      · exact ⟨q, List.mem_append_left _ hq, hk⟩
      · exact ⟨(k, v), List.mem_append_right _ (List.mem_singleton_self _), rfl⟩

/-- Keys accumulated by the dict-building fold. -/
lemma dictFold_keys {α : Type} (l : List (String × α)) (d : List (String × α)) (k' : String) :
    (∃ q ∈ l.foldl (fun d p => dictInsert d p.1 p.2) d, q.1 = k') ↔
      (∃ q ∈ d, q.1 = k') ∨ ∃ p ∈ l, p.1 = k' := by
  induction l generalizing d with
  | nil => simp
  | cons p t ih =>
    rw [List.foldl_cons, ih, dictInsert_keys]
    constructor
    · rintro ((h | h) | h)
      · exact Or.inl h
      · exact Or.inr ⟨p, List.mem_cons_self p t, h⟩
      · obtain ⟨q, hq, hk⟩ := h
        exact Or.inr ⟨q, List.mem_cons_of_mem p hq, hk⟩
    · rintro (h | ⟨q, hq, hk⟩)
      · exact Or.inl (Or.inl h)
      · rcases List.mem_cons.mp hq with rfl | hq'
        · exact Or.inl (Or.inr hk)
        · exact Or.inr ⟨q, hq', hk⟩

/-- The keys of a built dict are the firsts of its source pairs. -/
lemma dictOfPairs_keys {α : Type} (l : List (String × α)) (k' : String) :
    (∃ q ∈ dictOfPairs l, q.1 = k') ↔ ∃ p ∈ l, p.1 = k' := by
  unfold dictOfPairs
  rw [dictFold_keys]
  simp

/-- `addVoter` never changes the key set. -/
lemma addVoter_keys (voters d' : List (String × List String)) (h u : String)
    (hs : addVoter voters h u = some d') (k' : String) :
    (∃ q ∈ d', q.1 = k') ↔ ∃ q ∈ voters, q.1 = k' := by
  unfold addVoter at hs
  by_cases hex : ∃ q ∈ voters, q.1 = h
  · rw [if_pos hex] at hs
    cases hs
    have hfst : ∀ q : String × List String,
        ((if q.1 = h then (q.1, q.2 ++ [u]) else q).1) = q.1 := by
      intro q; split <;> rfl
    constructor
    · rintro ⟨q, hq, hk⟩
      obtain ⟨q0, hq0, rfl⟩ := List.mem_map.mp hq
      exact ⟨q0, hq0, by rwa [hfst q0] at hk⟩
    · rintro ⟨q, hq, hk⟩
      exact ⟨_, List.mem_map_of_mem _ hq, by rw [hfst q]; exact hk⟩
  · rw [if_neg hex] at hs
    cases hs

/-- The voters fold stays failed once it has failed. -/
lemma votersFold_none_start (l : List (String × String)) :
    l.foldl (fun acc p => acc.bind (fun v => addVoter v p.2 p.1)) none = none := by
  induction l with
  | nil => rfl
  | cons p t ih => exact ih

/-- If some per-user response points at a hash that is not a key of the
voters dict, the voters loop raises (`none`). -/
lemma votersFold_none (l : List (String × String)) (d : List (String × List String))
    (hbad : ∃ p ∈ l, ¬ ∃ q ∈ d, q.1 = p.2) :
    votersFold l d = none := by
  induction l generalizing d with
  | nil => simp at hbad
  | cons p t ih =>
    cases hs : addVoter d p.2 p.1 with
    | none =>
      show List.foldl _ (addVoter d p.2 p.1) t = none
      rw [hs]
      exact votersFold_none_start t
    | some d' =>
      have hk : ∃ q ∈ d, q.1 = p.2 := by
        by_contra hk
        unfold addVoter at hs
        rw [if_neg hk] at hs
        cases hs
      obtain ⟨pb, hpb, hnb⟩ := hbad
      rcases List.mem_cons.mp hpb with rfl | hpb'
      · exact absurd hk hnb
      · have hbad' : ∃ q ∈ t, ¬ ∃ q' ∈ d', q'.1 = q.2 :=
          ⟨pb, hpb', fun hc => hnb ((addVoter_keys d d' p.2 p.1 hs pb.2).mp hc)⟩
        show List.foldl _ (addVoter d p.2 p.1) t = none
        rw [hs]
        exact ih d' hbad'

/-- A response hash outside the poll's answer hashes makes the open-mode
tally body raise (`none`). -/
lemma openPollData_none (s : Storage) (room_id reference_id : String)
    (hbad : ∃ p ∈ user_responses s room_id reference_id,
      p.2 ∉ (get_answers s room_id reference_id).map (fun a => a.answer_hash)) :
    openPollData s room_id reference_id = none := by
  unfold openPollData
  obtain ⟨p, hp, hnot⟩ := hbad
  have hkeys : ¬ ∃ q ∈ voters_init s room_id reference_id, q.1 = p.2 := by
    unfold voters_init
    rw [dictOfPairs_keys]
    rintro ⟨pa, hpa, hk⟩
    obtain ⟨a, ha, rfl⟩ := List.mem_map.mp hpa
    exact hnot (List.mem_map.mpr ⟨a, ha, hk⟩)
  rw [votersFold_none _ _ ⟨p, hp, hkeys⟩]
  rfl

/-! ### Branch reductions of the `unknown` callback -/

/-- With the staleness filter passing, a poll-start typed event reaches the
poll-start branch. -/
lemma unknown_start_eq (room : String) (s : Storage) (ev : PollEvent)
    (fom io old : Bool) (sid : String)
    (hpass : (!fom && io && old) = false)
    (htype : ev.etype = "org.matrix.msc3381.poll.start" ∨ ev.etype = "m.poll.start") :
    unknown room s ev fom io old sid = handle_poll_start room s ev sid := by
  unfold unknown
  have h1 : ¬((!fom && io && old) = true) := by simp [hpass]
  rw [if_neg h1, if_pos htype]

/-- With the staleness filter passing, a poll-response typed event reaches the
poll-response branch. -/
lemma unknown_response_eq (room : String) (s : Storage) (ev : PollEvent)
    (fom io old : Bool) (sid : String)
    (hpass : (!fom && io && old) = false)
    (htype : ev.etype = "org.matrix.msc3381.poll.response" ∨ ev.etype = "m.poll.response") :
    unknown room s ev fom io old sid = handle_poll_response room s ev := by
  unfold unknown
  have h1 : ¬((!fom && io && old) = true) := by simp [hpass]
  have h2 : ¬(ev.etype = "org.matrix.msc3381.poll.start" ∨ ev.etype = "m.poll.start") := by
    rcases htype with h | h <;> rw [h] <;> decide
  rw [if_neg h1, if_neg h2, if_pos htype]

/-- With the staleness filter passing, a poll-end typed event reaches the
poll-end branch. -/
lemma unknown_end_eq (room : String) (s : Storage) (ev : PollEvent)
    (fom io old : Bool) (sid : String)
    (hpass : (!fom && io && old) = false)
    (htype : ev.etype = "org.matrix.msc3381.poll.end" ∨ ev.etype = "m.poll.end") :
    unknown room s ev fom io old sid = handle_poll_end room s ev := by
  unfold unknown
  have h1 : ¬((!fom && io && old) = true) := by simp [hpass]
  have h2 : ¬(ev.etype = "org.matrix.msc3381.poll.start" ∨ ev.etype = "m.poll.start") := by
    rcases htype with h | h <;> rw [h] <;> decide
  have h3 : ¬(ev.etype = "org.matrix.msc3381.poll.response" ∨
      ev.etype = "m.poll.response") := by
    rcases htype with h | h <;> rw [h] <;> decide
  rw [if_neg h1, if_neg h2, if_neg h3, if_pos htype]

/-- The poll-response branch once a poll row has been found: the response is
upserted, then the tally is re-rendered and edited in place (or the render
raises). -/
lemma handle_poll_response_found (room : String) (s : Storage) (ev : PollEvent)
    (a : String) (rest : List String) (hans : ev.response_answers = a :: rest)
    (href : ev.reference_id ≠ "")
    (row : PollRow) (hrow : get_reply_event s ev.room_id ev.reference_id = some row) :
    handle_poll_response room s ev =
      (match get_formatted_poll_results
          (create_or_update_response s a ev.sender ev.room_id ev.reference_id)
          ev.room_id ev.reference_id false row.kind with
      | none => ⟨create_or_update_response s a ev.sender ev.room_id ev.reference_id, [], true⟩
      | some msg =>
          ⟨create_or_update_response s a ev.sender ev.room_id ev.reference_id,
           [Effect.edit room row.reply_event_id msg], false⟩) := by
  unfold handle_poll_response
  rw [hans]
  show (if ev.reference_id = "" then _ else _) = _
  rw [if_neg href, hrow]

/-- A poll-response or poll-end event whose back-reference finds no poll row
leaves the store untouched and makes no outbound call (it either returns
silently or, for a response with an empty answers list, raises before any
store access). -/
lemma unknown_noop_when_missing (room sid : String) (s : Storage) (ev : PollEvent)
    (fom io old : Bool)
    (htype : ev.etype = "org.matrix.msc3381.poll.response" ∨ ev.etype = "m.poll.response" ∨
      ev.etype = "org.matrix.msc3381.poll.end" ∨ ev.etype = "m.poll.end")
    (hmiss : get_reply_event s ev.room_id ev.reference_id = none) :
    (unknown room s ev fom io old sid).store = s ∧
    (unknown room s ev fom io old sid).effects = [] := by
  unfold unknown
  by_cases hfil : (!fom && io && old) = true
  · rw [if_pos hfil]
    exact ⟨rfl, rfl⟩
  · rw [if_neg hfil]
    have h2 : ¬(ev.etype = "org.matrix.msc3381.poll.start" ∨ ev.etype = "m.poll.start") := by
      rcases htype with h | h | h | h <;> rw [h] <;> decide
    rw [if_neg h2]
    by_cases hresp : ev.etype = "org.matrix.msc3381.poll.response" ∨
        ev.etype = "m.poll.response"
    · rw [if_pos hresp]
      unfold handle_poll_response
      cases hh : ev.response_answers.head? with
      | none => exact ⟨rfl, rfl⟩
      | some a =>
        dsimp only
        by_cases href : ev.reference_id = ""
        · rw [if_pos href]
          exact ⟨rfl, rfl⟩
        · rw [if_neg href, hmiss]
          exact ⟨rfl, rfl⟩
    · have hend : ev.etype = "org.matrix.msc3381.poll.end" ∨ ev.etype = "m.poll.end" := by
        tauto
      rw [if_neg hresp, if_pos hend]
      unfold handle_poll_end
      rw [hmiss]
      exact ⟨rfl, rfl⟩

/-! ### The claims -/

/-- Claim C4 (confirmed): for every sequence of PollResponse upserts from the
same user on the same poll, the store holds exactly one response row for that
`(room_id, poll_event_id, user)` key (given the primary-key invariant held
before), the whole sequence collapses to the upsert of its last value, and
the rendered tally therefore reflects only the most recent response. -/
theorem C4_last_write_wins (s : Storage) (user room_id reference_id : String)
    (vs : List String) (vlast : String) (hlast : vs.getLast? = some vlast)
    (hinv : respCount s user room_id reference_id ≤ 1) :
    vs.foldl (fun st v => create_or_update_response st v user room_id reference_id) s =
      create_or_update_response s vlast user room_id reference_id ∧
    respCount
      (vs.foldl (fun st v => create_or_update_response st v user room_id reference_id) s)
      user room_id reference_id = 1 ∧
    ∀ (is_final : Bool) (kind : String),
      get_formatted_poll_results
          (vs.foldl (fun st v => create_or_update_response st v user room_id reference_id) s)
          room_id reference_id is_final kind =
        get_formatted_poll_results
          (create_or_update_response s vlast user room_id reference_id)
          room_id reference_id is_final kind := by
  have h1 := upsert_foldl user room_id reference_id vs vlast hlast s
  refine ⟨h1, ?_, ?_⟩
  · rw [h1]
    exact respCount_upsert s vlast user room_id reference_id hinv
  · intro is_final kind
    rw [h1]

/-- Witness for C4 at a concrete store and a two-vote sequence. -/
theorem C4_witness :
    (["a1", "a2"].getLast? = some "a2" ∧
      respCount ⟨[], [], []⟩ "@bob:x" "r" "e" ≤ 1) ∧
    ["a1", "a2"].foldl (fun st v => create_or_update_response st v "@bob:x" "r" "e")
        ⟨[], [], []⟩ =
      create_or_update_response ⟨[], [], []⟩ "a2" "@bob:x" "r" "e" ∧
    respCount
      (["a1", "a2"].foldl (fun st v => create_or_update_response st v "@bob:x" "r" "e")
        ⟨[], [], []⟩) "@bob:x" "r" "e" = 1 :=
  ⟨⟨rfl, by decide⟩,
   (C4_last_write_wins ⟨[], [], []⟩ "@bob:x" "r" "e" ["a1", "a2"] "a2" rfl (by decide)).1,
   (C4_last_write_wins ⟨[], [], []⟩ "@bob:x" "r" "e" ["a1", "a2"] "a2" rfl (by decide)).2.1⟩

/-- Claim C6 (confirmed): the membership predicate holds iff the event is a
poll-start (legacy or stabilized type) whose own event id equals the target,
or a poll-response/poll-end (legacy or stabilized) whose back-reference id
equals the target; every other event type yields false.  The hypothesis
records nio's parsing guarantee that events with these unrecognized poll type
strings are delivered as `UnknownEvent` objects. -/
theorem C6_membership_predicate (ev : PollEvent) (target : String)
    (hwf : (ev.etype = "org.matrix.msc3381.poll.start" ∨ ev.etype = "m.poll.start" ∨
        ev.etype = "org.matrix.msc3381.poll.response" ∨
        ev.etype = "org.matrix.msc3381.poll.end" ∨
        ev.etype = "m.poll.response" ∨ ev.etype = "m.poll.end") →
      ev.is_unknown_event = true) :
    event_related_to_poll ev target = true ↔
      (((ev.etype = "org.matrix.msc3381.poll.start" ∨ ev.etype = "m.poll.start") ∧
        ev.event_id = target) ∨
       ((ev.etype = "org.matrix.msc3381.poll.response" ∨
          ev.etype = "org.matrix.msc3381.poll.end" ∨
          ev.etype = "m.poll.response" ∨ ev.etype = "m.poll.end") ∧
        ev.reference_id = target)) := by
  unfold event_related_to_poll
  by_cases hu : ev.is_unknown_event = false
  · rw [if_pos hu]
    constructor
    · intro h
      exact absurd h (by decide)
    · rintro (⟨ht, _⟩ | ⟨ht, _⟩)
      · rw [hwf (by tauto)] at hu
        exact absurd hu (by decide)
      · rw [hwf (by tauto)] at hu
        exact absurd hu (by decide)
  · rw [if_neg hu]
    by_cases h1 : ev.etype = "org.matrix.msc3381.poll.start" ∨ ev.etype = "m.poll.start"
    · rw [if_pos h1, beq_iff_eq]
      constructor
      · intro h
        exact Or.inl ⟨h1, h⟩
      · rintro (⟨_, h⟩ | ⟨ht, _⟩)
        · exact h
        · rcases h1 with ha | ha <;> rcases ht with hb | hb | hb | hb <;>
            rw [ha] at hb <;> exact absurd hb (by decide)
    · rw [if_neg h1]
      by_cases h2 : ev.etype = "org.matrix.msc3381.poll.response" ∨
          ev.etype = "org.matrix.msc3381.poll.end" ∨
          ev.etype = "m.poll.response" ∨ ev.etype = "m.poll.end"
      · rw [if_pos h2, beq_iff_eq]
        constructor
        · intro h
          exact Or.inr ⟨h2, h⟩
        · rintro (⟨ht, _⟩ | ⟨_, h⟩)
          · exact absurd ht h1
          · exact h
      · rw [if_neg h2]
        constructor
        · intro h
          exact absurd h (by decide)
        · rintro (⟨ht, _⟩ | ⟨ht, _⟩)
          · exact absurd ht h1
          · exact absurd ht h2

/-- Witness for C6: a poll-start event matching its own id. -/
theorem C6_witness : event_related_to_poll c6_ev "e" = true :=
  (C6_membership_predicate c6_ev "e" (fun _ => rfl)).mpr (Or.inl ⟨Or.inl rfl, rfl⟩)

/-- Claim C8 (confirmed): in both rendering modes the `is_final` flag changes
only the leading label; the tally body after the label is the identical
string (and a raising render raises for both flag values alike). -/
theorem C8_final_flag_only_label (s : Storage) (room_id reference_id : String) :
    ((get_formatted_open_poll_results s room_id reference_id true = none ∧
      get_formatted_open_poll_results s room_id reference_id false = none) ∨
     ∃ topic body,
       get_formatted_open_poll_results s room_id reference_id true =
         some ("Final poll results for `" ++ topic ++ "`:\n\n" ++ body) ∧
       get_formatted_open_poll_results s room_id reference_id false =
         some ("Poll results for `" ++ topic ++ "`:\n\n" ++ body)) ∧
    ((get_formatted_closed_poll_results s room_id reference_id true = none ∧
      get_formatted_closed_poll_results s room_id reference_id false = none) ∨
     ∃ topic body,
       get_formatted_closed_poll_results s room_id reference_id true =
         some ("Final voters for poll `" ++ topic ++ "`:\n\n" ++ body) ∧
       get_formatted_closed_poll_results s room_id reference_id false =
         some ("Voters for poll `" ++ topic ++ "`:\n\n" ++ body)) := by
  constructor
  · unfold get_formatted_open_poll_results
    cases hp : get_poll s room_id reference_id with
    | none => exact Or.inl ⟨rfl, rfl⟩
    | some poll =>
      cases hd : openPollData s room_id reference_id with
      | none => exact Or.inl ⟨rfl, rfl⟩
      | some data => exact Or.inr ⟨poll.topic, data, rfl, rfl⟩
  · unfold get_formatted_closed_poll_results
    cases hp : get_poll s room_id reference_id with
    | none => exact Or.inl ⟨rfl, rfl⟩
    | some poll =>
      exact Or.inr ⟨poll.topic, closedPollData s room_id reference_id, rfl, rfl⟩

/-- Claim C9 (confirmed): a valid PollStart for a `(room_id, event_id)`
already present in the store is not a no-op: the unconditional INSERT
violates the primary key and raises, aborting the handler with no outbound
send and the store unchanged. -/
theorem C9_duplicate_start_raises (room sid : String) (s : Storage) (ev : PollEvent)
    (fom io old : Bool) (hpass : (!fom && io && old) = false)
    (htype : ev.etype = "org.matrix.msc3381.poll.start" ∨ ev.etype = "m.poll.start")
    (hc : ev.has_content = true) (hsc : ev.start_content_present = true)
    (ht : ev.topic ≠ "") (hk : ev.kind ≠ "")
    (hdup : ∃ p ∈ s.polls, p.room_id = ev.room_id ∧ p.event_id = ev.event_id) :
    unknown room s ev fom io old sid = ⟨s, [], true⟩ := by
  rw [unknown_start_eq room s ev fom io old sid hpass htype]
  unfold handle_poll_start
  have hcp : create_poll s ev.room_id ev.event_id ev.topic ev.kind = none := by
    unfold create_poll
    rw [if_pos hdup]
  rw [if_neg (by simp [hc]), if_neg (by simp [hsc]), if_neg ht, if_neg hk, hcp]

/-- Witness for C9 at a concrete duplicated poll start. -/
theorem C9_witness :
    unknown "r" c9_store c9_ev true true false "sid" = ⟨c9_store, [], true⟩ :=
  C9_duplicate_start_raises "r" "sid" c9_store c9_ev true true false (by decide)
    (Or.inl rfl) rfl rfl (by decide) (by decide) (by decide)

/-- Claim C10 (confirmed): the renderer dispatch selects the disclosed
presentation only for the exact legacy kind string; every other kind,
including the stabilized synonym, gets the undisclosed presentation. -/
theorem C10_dispatch (s : Storage) (room_id reference_id : String) (is_final : Bool)
    (kind : String) (h : kind ≠ "org.matrix.msc3381.poll.disclosed") :
    get_formatted_poll_results s room_id reference_id is_final kind =
      get_formatted_closed_poll_results s room_id reference_id is_final ∧
    get_formatted_poll_results s room_id reference_id is_final
        "org.matrix.msc3381.poll.disclosed" =
      get_formatted_open_poll_results s room_id reference_id is_final := by
  unfold get_formatted_poll_results
  exact ⟨by rw [if_neg h], by rw [if_pos rfl]⟩

/-- Witness for C10 with the stabilized synonym kind. -/
theorem C10_witness :
    get_formatted_poll_results ⟨[], [], []⟩ "r" "e" false "m.poll.disclosed" =
      get_formatted_closed_poll_results ⟨[], [], []⟩ "r" "e" false :=
  (C10_dispatch ⟨[], [], []⟩ "r" "e" false "m.poll.disclosed" (by decide)).1

/-- Counterexample to C1: on a disclosed poll whose persisted response has an
answer hash matching no persisted answer, the renderer does not return a
tally string at all — the voters loop raises `KeyError` (`none`). -/
theorem C1_counterexample :
    get_formatted_poll_results c1_store "r" "e" false "org.matrix.msc3381.poll.disclosed" =
      none := by decide

/-- Claim C1 (corrected): for every disclosed-mode render, a persisted
response whose answer hash (as it survives into the per-user response dict)
matches no persisted answer of the poll makes the renderer raise a `KeyError`
— modelled as `none` — instead of returning a tally string with that voter
omitted. -/
theorem C1_unknown_hash_raises (s : Storage) (room_id reference_id : String)
    (is_final : Bool)
    (hbad : ∃ p ∈ user_responses s room_id reference_id,
      p.2 ∉ (get_answers s room_id reference_id).map (fun a => a.answer_hash)) :
    get_formatted_open_poll_results s room_id reference_id is_final = none := by
  unfold get_formatted_open_poll_results
  rw [openPollData_none s room_id reference_id hbad]
  cases get_poll s room_id reference_id <;> rfl

/-- Witness for C1 at the concrete unknown-hash store. -/
theorem C1_witness :
    (∃ p ∈ user_responses c1_store "r" "e",
      p.2 ∉ (get_answers c1_store "r" "e").map (fun a => a.answer_hash)) ∧
    get_formatted_open_poll_results c1_store "r" "e" true = none :=
  ⟨by decide, C1_unknown_hash_raises c1_store "r" "e" true (by decide)⟩

/-- Counterexample to C2: a PollResponse event with an empty declared answers
list is not dropped silently — the handler raises (IndexError) before any
validation. -/
theorem C2_counterexample :
    (unknown "r" ⟨[], [], []⟩ c2_bad_ev true true false "sid").raised = true := by decide

/-- Claim C2 (corrected): for every PollResponse event the selected answer is
the first element of the declared answers list, and an event with an empty
back-reference id (but a nonempty answers list) is dropped without raising
and without mutating the store; an event whose answers list is empty,
however, raises IndexError before any store access instead of being silently
dropped. -/
theorem C2_first_answer_selected (room sid : String) (s : Storage) (ev : PollEvent)
    (fom io old : Bool) (hpass : (!fom && io && old) = false)
    (htype : ev.etype = "org.matrix.msc3381.poll.response" ∨
      ev.etype = "m.poll.response") :
    (ev.response_answers = [] → unknown room s ev fom io old sid = ⟨s, [], true⟩) ∧
    (∀ a rest, ev.response_answers = a :: rest → ev.reference_id = "" →
      unknown room s ev fom io old sid = ⟨s, [], false⟩) ∧
    (∀ a rest row, ev.response_answers = a :: rest → ev.reference_id ≠ "" →
      get_reply_event s ev.room_id ev.reference_id = some row →
      (unknown room s ev fom io old sid).store =
        create_or_update_response s a ev.sender ev.room_id ev.reference_id) := by
  rw [unknown_response_eq room s ev fom io old sid hpass htype]
  refine ⟨?_, ?_, ?_⟩
  · intro h
    unfold handle_poll_response
    rw [h]
    rfl
  · intro a rest h href
    unfold handle_poll_response
    rw [h, List.head?_cons]
    dsimp only
    rw [if_pos href]
  · intro a rest row h href hrow
    rw [handle_poll_response_found room s ev a rest h href row hrow]
    cases get_formatted_poll_results
        (create_or_update_response s a ev.sender ev.room_id ev.reference_id)
        ev.room_id ev.reference_id false row.kind <;> rfl

/-- Witness for C2 at a concrete response event choosing `"a1"`. -/
theorem C2_witness :
    (unknown "r" c2_store c2_ev true true false "sid").store =
      create_or_update_response c2_store "a1" "@bob:x" "r" "e" :=
  (C2_first_answer_selected "r" "sid" c2_store c2_ev true true false (by decide)
      (Or.inl rfl)).2.2 "a1" [] ⟨"r", "e", "T", "k", some "re"⟩ rfl (by decide) (by decide)

/-- Counterexample to C3: for a poll that exists in the store with
`reply_event_id` unset, handling a PollResponse is not a no-op — the store
changes and an outbound call is made. -/
theorem C3_counterexample :
    (unknown "r" c3_store c3_ev true true false "sid").store ≠ c3_store ∧
    (unknown "r" c3_store c3_ev true true false "sid").effects ≠ [] := by decide

/-- Claim C3 (corrected): the handler gates only on the existence of the poll
row, not on `reply_event_id` being set: for a poll that exists with
`reply_event_id` unset, the Response is upserted and (when the re-render does
not raise) one outbound edit call with a null edit target is made; the
silent-no-op path applies only when the poll row is absent. -/
theorem C3_missing_reply_id_not_noop (room sid : String) (s : Storage) (ev : PollEvent)
    (fom io old : Bool) (hpass : (!fom && io && old) = false)
    (htype : ev.etype = "org.matrix.msc3381.poll.response" ∨
      ev.etype = "m.poll.response")
    (a : String) (rest : List String) (hans : ev.response_answers = a :: rest)
    (href : ev.reference_id ≠ "")
    (row : PollRow) (hrow : get_reply_event s ev.room_id ev.reference_id = some row)
    (hnorep : row.reply_event_id = none) :
    (unknown room s ev fom io old sid).store =
      create_or_update_response s a ev.sender ev.room_id ev.reference_id ∧
    ((unknown room s ev fom io old sid).raised = false →
      ∃ msg, (unknown room s ev fom io old sid).effects = [Effect.edit room none msg]) := by
  rw [unknown_response_eq room s ev fom io old sid hpass htype,
    handle_poll_response_found room s ev a rest hans href row hrow]
  cases hr : get_formatted_poll_results
      (create_or_update_response s a ev.sender ev.room_id ev.reference_id)
      ev.room_id ev.reference_id false row.kind with
  | none => exact ⟨rfl, fun h => nomatch h⟩
  | some msg => exact ⟨rfl, fun _ => ⟨msg, by rw [hnorep]⟩⟩

/-- Witness for C3 at the concrete reply-id-less poll. -/
theorem C3_witness :
    (unknown "r" c3_store c3_ev true true false "sid").store =
      create_or_update_response c3_store "a1" "@bob:x" "r" "e" ∧
    ((unknown "r" c3_store c3_ev true true false "sid").raised = false →
      ∃ msg, (unknown "r" c3_store c3_ev true true false "sid").effects =
        [Effect.edit "r" none msg]) :=
  C3_missing_reply_id_not_noop "r" "sid" c3_store c3_ev true true false (by decide)
    (Or.inl rfl) "a1" [] rfl (by decide) ⟨"r", "e", "T", "k", none⟩ (by decide) rfl

/-- Counterexample to C5: a PollEnd for a poll known to the store does not
always delete it — when the final-tally render raises (disclosed poll with an
unknown-hash response), the handler aborts and the poll stays. -/
theorem C5_counterexample :
    get_reply_event c5_store "r" "e" ≠ none ∧
    get_poll ((unknown "r" c5_store c5_ev true true false "sid").store) "r" "e" ≠
      none := by decide

/-- Claim C5 (corrected): handling a PollEnd for a poll known to the store
deletes the poll with all of its answers and responses — provided rendering
the final tally does not raise (it raises exactly in the C1 unknown-hash
situation); afterwards any PollResponse or second PollEnd referencing the
same root finds no poll and neither mutates the store nor makes any outbound
call. -/
theorem C5_end_deletes_poll (room sid : String) (s : Storage) (ev : PollEvent)
    (fom io old : Bool) (hpass : (!fom && io && old) = false)
    (htype : ev.etype = "org.matrix.msc3381.poll.end" ∨ ev.etype = "m.poll.end")
    (row : PollRow) (hrow : get_reply_event s ev.room_id ev.reference_id = some row)
    (hrender : get_formatted_poll_results s ev.room_id ev.reference_id true row.kind ≠
      none) :
    (unknown room s ev fom io old sid).store =
      delete_poll s ev.room_id ev.reference_id ∧
    get_poll (delete_poll s ev.room_id ev.reference_id) ev.room_id ev.reference_id =
      none ∧
    get_answers (delete_poll s ev.room_id ev.reference_id) ev.room_id ev.reference_id =
      [] ∧
    get_responses (delete_poll s ev.room_id ev.reference_id) ev.room_id ev.reference_id =
      [] ∧
    ∀ (ev2 : PollEvent) (room2 sid2 : String) (fom2 io2 old2 : Bool),
      (ev2.etype = "org.matrix.msc3381.poll.response" ∨ ev2.etype = "m.poll.response" ∨
        ev2.etype = "org.matrix.msc3381.poll.end" ∨ ev2.etype = "m.poll.end") →
      ev2.room_id = ev.room_id → ev2.reference_id = ev.reference_id →
      (unknown room2 (delete_poll s ev.room_id ev.reference_id) ev2
          fom2 io2 old2 sid2).store = delete_poll s ev.room_id ev.reference_id ∧
      (unknown room2 (delete_poll s ev.room_id ev.reference_id) ev2
          fom2 io2 old2 sid2).effects = [] := by
  refine ⟨?_, get_poll_delete s ev.room_id ev.reference_id,
    get_answers_delete s ev.room_id ev.reference_id,
    get_responses_delete s ev.room_id ev.reference_id, ?_⟩
  · rw [unknown_end_eq room s ev fom io old sid hpass htype]
    unfold handle_poll_end
    rw [hrow]
    dsimp only
    cases hr : get_formatted_poll_results s ev.room_id ev.reference_id true row.kind with
    | none => exact absurd hr hrender
    | some msg => rfl
  · intro ev2 room2 sid2 fom2 io2 old2 htype2 hroom2 href2
    apply unknown_noop_when_missing room2 sid2 _ ev2 fom2 io2 old2 htype2
    rw [hroom2, href2]
    exact get_reply_event_delete s ev.room_id ev.reference_id

/-- Witness for C5 at a concrete undisclosed poll with one vote, ended and
then hit by a second end event. -/
theorem C5_witness :
    (unknown "r" c5w_store c5w_ev true true false "sid").store =
      delete_poll c5w_store "r" "e" ∧
    (unknown "r2" (delete_poll c5w_store "r" "e") c5w_ev true true false "sid2").store =
      delete_poll c5w_store "r" "e" :=
  ⟨(C5_end_deletes_poll "r" "sid" c5w_store c5w_ev true true false (by decide)
      (Or.inr rfl) ⟨"r", "e", "T", "k", some "re"⟩ (by decide) (by decide)).1,
   ((C5_end_deletes_poll "r" "sid" c5w_store c5w_ev true true false (by decide)
      (Or.inr rfl) ⟨"r", "e", "T", "k", some "re"⟩ (by decide) (by decide)).2.2.2.2
      c5w_ev "r2" "sid2" true true false (Or.inr (Or.inr (Or.inr rfl))) rfl rfl).1⟩

/-- Counterexample to C7: the initial disclosed render of the `Lunch?` poll
is not the claimed label-plus-buckets string (wrong label, bucket order and
separators), under either reading of the concatenation. -/
theorem C7_counterexample :
    get_formatted_poll_results c7_store "r" "e" false
        "org.matrix.msc3381.poll.disclosed" ≠
      some ("Voters for poll `Lunch?`:" ++ "Pizza:\n\n\nSalad:\n\n\n") ∧
    get_formatted_poll_results c7_store "r" "e" false
        "org.matrix.msc3381.poll.disclosed" ≠
      some ("Voters for poll `Lunch?`:" ++ "\n\n" ++ "Pizza:\n\n\nSalad:\n\n\n") := by
  decide

/-- Claim C7 (corrected): the initial disclosed render of the `Lunch?` poll
equals the label `Poll results for ⟦Lunch?⟧:` followed by a blank line and
the empty buckets in reverse insertion order, `Salad:` then `Pizza:`, each
bucket closed by one blank line. -/
theorem C7_initial_render :
    get_formatted_poll_results c7_store "r" "e" false
        "org.matrix.msc3381.poll.disclosed" =
      some ("Poll results for `Lunch?`:\n\n" ++ "Salad:\n\nPizza:\n\n") := by decide

end NioPollBot
